import Mathlib

/-!
# Verification of the weather edge-detection core of `polymarket-bot`

This file gives a shallow embedding of the weather-market scanning pipeline of
the repository (the NWS forecast client in `src/index.ts`, third document, and
the `WeatherScanner` in `src/weather/scanner.ts`) and proves or refutes the
frozen claims about it.

Modelling conventions:
* JavaScript numbers that the code only ever uses as exact decimals (prices,
  temperatures, standard deviations, hour counts) are embedded as `ℚ` or `ℤ`.
* Millisecond timestamps (`Date.getTime()`) are embedded as `ℤ`.
* `Date.prototype.toISOString().split('T')[0]` is UTC-based; it is embedded
  exactly by `msToIsoDate`, using the standard civil-from-days calendar
  algorithm.
* Raw records with optional, loosely named fields are embedded as structures
  of `Option` fields; the `a || b || c` JavaScript idiom is embedded by
  `jsStrOr` / `jsNumOr`, which skip absent and falsy (empty string / zero)
  values.
* The string arguments of `new Date(...)` produced by the date regexes are
  parsed by `jsParseDate`, a model of the Node.js (V8) date parser for exactly
  the string shapes those regexes can produce, assuming a UTC runtime
  timezone.  Notably V8 fills in a missing year with its default year 2001
  (for example `new Date("dec 25")` is 2001-12-25), and returns an invalid
  date for out-of-range components.
* Throwing code is embedded with `Except String`; external calls (HTTP
  fetches, price lookups) are embedded as explicit inputs describing the
  outcome of each call.
-/

/-! ## Character and string utilities -/

/-- Embeds `String.prototype.toLowerCase()` (character-wise; all the text the
scanner lowercases is ASCII apart from the degree sign, which is unaffected). -/
def toLowerStr (s : String) : String :=
  String.mk (s.toList.map Char.toLower)

/-- `startsWithL needle hay`: `needle` is a prefix of `hay` (exact chars). -/
def startsWithL : List Char → List Char → Bool
  | [], _ => true
  | _ :: _, [] => false
  | p :: ps, c :: cs => p == c && startsWithL ps cs

/-- `containsL needle hay` embeds JavaScript `hay.includes(needle)`. -/
def containsL (needle : List Char) : List Char → Bool
  | [] => needle.isEmpty
  | c :: cs => startsWithL needle (c :: cs) || containsL needle cs

/-- Split a character list on a separator character. -/
def splitOnCh (sep : Char) : List Char → List (List Char)
  | [] => [[]]
  | x :: xs =>
    if x == sep then [] :: splitOnCh sep xs
    else
      match splitOnCh sep xs with
      | [] => [[x]]
      | h :: t => (x :: h) :: t

/-- Numeric value of a list of decimal digit characters. -/
def digitsVal (ds : List Char) : Nat :=
  ds.foldl (fun n c => n * 10 + (c.toNat - '0'.toNat)) 0

/-- Take up to `n` leading digit characters, returning them and the rest. -/
def takeUpToDigits : Nat → List Char → List Char × List Char
  | 0, cs => ([], cs)
  | _ + 1, [] => ([], [])
  | n + 1, c :: cs =>
    if c.isDigit then
      match takeUpToDigits n cs with
      | (d, r) => (c :: d, r)
    else ([], c :: cs)

/-! ## Calendar arithmetic (UTC)

`Date.prototype.toISOString()` always formats in UTC, so the date component
is a pure function of the millisecond timestamp, computed here with the
standard civil-from-days algorithm. -/

/-- Gregorian `(year, month, day)` of a day count since 1970-01-01. -/
def civilFromDays (z0 : Int) : Int × Nat × Nat :=
  let z := z0 + 719468
  let era : Int := Int.fdiv z 146097
  let doe : Int := z - era * 146097
  let yoe : Int :=
    Int.fdiv (doe - Int.fdiv doe 1460 + Int.fdiv doe 36524 - Int.fdiv doe 146096) 365
  let y : Int := yoe + era * 400
  let doy : Int := doe - (365 * yoe + Int.fdiv yoe 4 - Int.fdiv yoe 100)
  let mp : Int := Int.fdiv (5 * doy + 2) 153
  let d : Int := doy - Int.fdiv (153 * mp + 2) 5 + 1
  let m : Int := mp + (if mp < 10 then 3 else -9)
  (y + (if m ≤ 2 then 1 else 0), m.toNat, d.toNat)

/-- Zero-padded two-digit decimal rendering. -/
def pad2 (n : Nat) : String :=
  if n < 10 then "0" ++ toString n else toString n

/-- Zero-padded four-digit decimal rendering of a (non-negative) year. -/
def pad4 (y : Int) : String :=
  let n := y.toNat
  if n < 10 then "000" ++ toString n
  else if n < 100 then "00" ++ toString n
  else if n < 1000 then "0" ++ toString n
  else toString n

/-- Format a Gregorian date as ISO `YYYY-MM-DD`. -/
def fmtIso (y : Int) (m d : Nat) : String :=
  pad4 y ++ "-" ++ pad2 m ++ "-" ++ pad2 d

/-- Embeds `new Date(ms).toISOString().split('T')[0]` (UTC calendar date). -/
def msToIsoDate (ms : Int) : String :=
  match civilFromDays (Int.fdiv ms 86400000) with
  | (y, m, d) => fmtIso y m d

/-- UTC year of a millisecond timestamp. -/
def yearOfMs (ms : Int) : Int :=
  (civilFromDays (Int.fdiv ms 86400000)).1

/-- Leap year test of the Gregorian calendar. -/
def isLeapYear (y : Int) : Bool :=
  y % 4 == 0 && (y % 100 != 0 || y % 400 == 0)

/-- Number of days in a month. -/
def daysInMonth (y : Int) (m : Nat) : Nat :=
  if m == 2 then (if isLeapYear y then 29 else 28)
  else if m == 4 || m == 6 || m == 9 || m == 11 then 30
  else 31

/-- JavaScript `Math.round` on an exact rational: round half toward `+∞`,
i.e. `⌊q + 1/2⌋`, computed as `⌊(2·num + den) / (2·den)⌋`. -/
def jsRound (q : ℚ) : Int := Int.fdiv (2 * q.num + (q.den : Int)) (2 * (q.den : Int))

/-- Midnight starting the next UTC day after `nowMs`: embeds
`tomorrow.setDate(tomorrow.getDate() + 1)` under the UTC-timezone model. -/
def tomorrowMidnightMs (nowMs : Int) : Int :=
  Int.fdiv nowMs 86400000 * 86400000 + 86400000

/-! ## JavaScript field-alias and falsiness helpers -/

/-- Embeds the JavaScript `a || b` idiom on possibly absent strings:
an absent or empty (falsy) string falls through to the default. -/
def jsStrOr (o : Option String) (d : String) : String :=
  match o with
  | some s => if s == "" then d else s
  | none => d

/-- Embeds the JavaScript `a || b` idiom on possibly absent numbers:
an absent or zero (falsy) number falls through to the default. -/
def jsNumOr (o : Option ℚ) (d : ℚ) : ℚ :=
  match o with
  | some p => if p == 0 then d else p
  | none => d

/-! ## The date regex patterns of `WeatherScanner.extractTargetDate`

`scanner.ts` lines 177-182 try, in order, the patterns
`/(\d{4}-\d{2}-\d{2})/`, `/(\d{1,2}\/\d{1,2}\/?\d{0,4})/`,
`/(january|...|december)\s+(\d{1,2})/i` and
`/(jan|...|dec)\.?\s+(\d{1,2})/i` against the (already lowercased) question.
Each matcher below tries its pattern anchored at the head of a character
list and returns the matched text; `scanMatch` turns that into the leftmost
match, which is what `String.prototype.match` returns. -/

/-- Leftmost match of an anchored matcher, as `String.prototype.match`. -/
def scanMatch (matchAt : List Char → Option (List Char)) : List Char → Option (List Char)
  | [] => none
  | c :: rest =>
    match matchAt (c :: rest) with
    | some m => some m
    | none => scanMatch matchAt rest

/-- Anchored matcher for `\d{4}-\d{2}-\d{2}`. -/
def matchIsoAt (cs : List Char) : Option (List Char) :=
  match cs with
  | a :: b :: c :: d :: s1 :: e :: f :: s2 :: g :: h :: _ =>
    if a.isDigit && b.isDigit && c.isDigit && d.isDigit && s1 == '-' &&
       e.isDigit && f.isDigit && s2 == '-' && g.isDigit && h.isDigit then
      some [a, b, c, d, s1, e, f, s2, g, h]
    else none
  | _ => none

/-- Continuation of the `\d{1,2}\/\d{1,2}\/?\d{0,4}` matcher after the first
number has been consumed: a slash, a second 1-2 digit number (greedy), an
optional slash, and up to four further digits (greedy). -/
def matchSlashAfterFirst (num1 : List Char) (rest : List Char) : Option (List Char) :=
  match rest with
  | '/' :: r1 =>
    match takeUpToDigits 2 r1 with
    | (num2, r2) =>
      if num2.isEmpty then none
      else
        match r2 with
        | '/' :: r3 =>
          match takeUpToDigits 4 r3 with
          | (num3, _) => some (num1 ++ '/' :: (num2 ++ '/' :: num3))
        | _ =>
          match takeUpToDigits 4 r2 with
          | (num3, _) => some (num1 ++ '/' :: (num2 ++ num3))
  | _ => none

/-- Anchored matcher for `\d{1,2}\/\d{1,2}\/?\d{0,4}` (with backtracking on
the greedy first `\d{1,2}`). -/
def matchSlashAt : List Char → Option (List Char)
  | a :: b :: rest =>
    if a.isDigit then
      if b.isDigit then
        match matchSlashAfterFirst [a, b] rest with
        | some m => some m
        | none => matchSlashAfterFirst [a] (b :: rest)
      else matchSlashAfterFirst [a] (b :: rest)
    else none
  | _ => none

/-- The full month names, in the alternation order of the source regex. -/
def fullMonthNames : List (List Char) :=
  ["january".toList, "february".toList, "march".toList, "april".toList,
   "may".toList, "june".toList, "july".toList, "august".toList,
   "september".toList, "october".toList, "november".toList, "december".toList]

/-- The abbreviated month names, in the alternation order of the source regex. -/
def abbrevMonthNames : List (List Char) :=
  ["jan".toList, "feb".toList, "mar".toList, "apr".toList, "may".toList,
   "jun".toList, "jul".toList, "aug".toList, "sep".toList, "oct".toList,
   "nov".toList, "dec".toList]

/-- Case-insensitive anchored match of a literal name; returns the consumed
input characters and the rest. -/
def matchNameAt : List Char → List Char → Option (List Char × List Char)
  | [], cs => some ([], cs)
  | _ :: _, [] => none
  | p :: ps, c :: cs =>
    if c.toLower == p then
      match matchNameAt ps cs with
      | some (con, r) => some (c :: con, r)
      | none => none
    else none

/-- `\s+` followed by a greedy `\d{1,2}`; returns the consumed characters. -/
def matchSpacesDigits (cs : List Char) : Option (List Char) :=
  match cs.span Char.isWhitespace with
  | (sp, r1) =>
    if sp.isEmpty then none
    else
      match takeUpToDigits 2 r1 with
      | (ds, _) => if ds.isEmpty then none else some (sp ++ ds)

/-- Anchored matcher for a month-name alternation followed by `\.?` (only when
`allowDot`, i.e. for the abbreviated pattern), `\s+` and `\d{1,2}`. -/
def matchMonthListAt (names : List (List Char)) (allowDot : Bool)
    (cs : List Char) : Option (List Char) :=
  match names with
  | [] => none
  | n :: ns =>
    match matchNameAt n cs with
    | some (con, rest) =>
      let withDot :=
        if allowDot then
          match rest with
          | '.' :: r2 =>
            match matchSpacesDigits r2 with
            | some t => some (con ++ '.' :: t)
            | none => none
          | _ => none
        else none
      match withDot with
      | some m => some m
      | none =>
        match matchSpacesDigits rest with
        | some t => some (con ++ t)
        | none => matchMonthListAt ns allowDot cs
    | none => matchMonthListAt ns allowDot cs

/-! ## Model of the Node.js `new Date(string)` parser

`extractTargetDate` feeds the matched text of one of the four regexes to
`new Date(...)` and keeps the result when it is a valid date.  The model
below covers exactly those string shapes, under a UTC runtime timezone:
* `YYYY-MM-DD` is parsed as a UTC date and rejected when out of range;
* `M/D`, `M/D/YY`, `M/D/YYYY` are parsed month-first; a missing year is the
  current year, a two-digit year is windowed (`< 50` → 2000s, else 1900s);
* `monthname D` (full or three-letter name, optional dot) takes V8's default
  year 2001, since the string carries no year — this is the well-known
  Node/V8 behaviour where `new Date("dec 25")` is 2001-12-25. -/

/-- V8's default year for date strings that carry no year component. -/
def jsDefaultYear : Int := 2001

/-- Model of `new Date("YYYY-MM-DD")` (UTC), returning the ISO date. -/
def parseIsoShape (cs : List Char) : Option String :=
  match splitOnCh '-' cs with
  | [ys, ms, ds] =>
    if ys.length == 4 && ms.length == 2 && ds.length == 2 &&
       ys.all Char.isDigit && ms.all Char.isDigit && ds.all Char.isDigit then
      let y : Int := (digitsVal ys : Int)
      let mo := digitsVal ms
      let d := digitsVal ds
      if 1 ≤ mo && mo ≤ 12 && 1 ≤ d && d ≤ daysInMonth y mo then
        some (fmtIso y mo d)
      else none
    else none
  | _ => none

/-- Model of `new Date("M/D")` / `new Date("M/D/Y")`, returning the ISO date. -/
def parseSlashShape (ctxYear : Int) (cs : List Char) : Option String :=
  let build : Nat → Nat → Int → Option String := fun mo d y =>
    if 1 ≤ mo && mo ≤ 12 && 1 ≤ d && d ≤ daysInMonth y mo then
      some (fmtIso y mo d)
    else none
  match splitOnCh '/' cs with
  | [ms, ds] => build (digitsVal ms) (digitsVal ds) ctxYear
  | [ms, ds, ys] =>
    if ys.isEmpty then none
    else
      let yv := digitsVal ys
      let y : Int :=
        if ys.length ≤ 2 then (if yv < 50 then 2000 + yv else 1900 + yv)
        else (yv : Int)
      build (digitsVal ms) (digitsVal ds) y
  | _ => none

/-- The month names recognised by the date parser, longest first so that a
full name is preferred over its three-letter abbreviation. -/
def monthNamePairs : List (List Char × Nat) :=
  (fullMonthNames.zip [1, 2, 3, 4, 5, 6, 7, 8, 9, 10, 11, 12]) ++
  (abbrevMonthNames.zip [1, 2, 3, 4, 5, 6, 7, 8, 9, 10, 11, 12])

/-- Find the first month name that is a prefix of the input. -/
def monthFromNameAt (pairs : List (List Char × Nat)) (cs : List Char) :
    Option (Nat × List Char) :=
  match pairs with
  | [] => none
  | (n, num) :: rest =>
    if startsWithL n cs then some (num, cs.drop n.length)
    else monthFromNameAt rest cs

/-- Model of `new Date("monthname D")` (no year in the string, so V8's
default year applies), returning the ISO date. -/
def parseMonthNameShape (cs : List Char) : Option String :=
  match monthFromNameAt monthNamePairs cs with
  | none => none
  | some (mo, r0) =>
    let r1 := match r0 with
      | '.' :: r => r
      | r => r
    match r1.span Char.isWhitespace with
    | (sp, r2) =>
      if sp.isEmpty then none
      else
        match r2.span Char.isDigit with
        | (ds, _) =>
          if ds.isEmpty then none
          else
            let d := digitsVal ds
            if 1 ≤ d && d ≤ daysInMonth jsDefaultYear mo then
              some (fmtIso jsDefaultYear mo d)
            else none

/-- Model of `new Date(s).toISOString().split('T')[0]` for the string shapes
the date regexes can produce; `none` models an invalid date (`NaN` time). -/
def jsParseDate (ctxYear : Int) (s : String) : Option String :=
  let cs := s.toList
  if cs.contains '-' then parseIsoShape cs
  else if cs.contains '/' then parseSlashShape ctxYear cs
  else parseMonthNameShape cs

/-! ## Data model -/

/-- Confidence tier of a daily forecast (`src/index.ts`, `DailyForecast`). -/
inductive Confidence where
  | very_high
  | high
  | medium
  | low
deriving DecidableEq, Repr

/-- One hourly forecast sample (`src/index.ts`, `HourlyForecast`).  The raw
`startTime` ISO string is embedded by its millisecond timestamp, so that
`new Date(f.startTime).toISOString()` is `msToIsoDate f.startTimeMs`.
The unused `endTime` and `temperatureUnit` fields are omitted. -/
structure HourlyForecast where
  startTimeMs : Int
  temperature : Int
  isDaytime : Bool
  shortForecast : String
deriving DecidableEq, Repr

/-- Daily aggregate for one city and date (`src/index.ts`, `DailyForecast`). -/
structure DailyForecast where
  date : String
  highTemp : Int
  lowTemp : Int
  confidence : Confidence
  hoursUntil : Int
  shortForecast : String
deriving DecidableEq, Repr

/-- One tracked city (`src/index.ts`, `CITIES` values). -/
structure CityInfo where
  name : String
  lat : ℚ
  lon : ℚ
  station : String
deriving DecidableEq, Repr

/-- The tracked-city table (`src/index.ts` lines 293-300), in insertion
order, which is the iteration order of a JavaScript object literal. -/
def CITIES : List (String × CityInfo) :=
  [("NYC", CityInfo.mk "New York City" 40.7128 (-74.0060) "KNYC"),
   ("LA", CityInfo.mk "Los Angeles" 34.0522 (-118.2437) "KLAX"),
   ("Chicago", CityInfo.mk "Chicago" 41.8781 (-87.6298) "KORD"),
   ("Miami", CityInfo.mk "Miami" 25.7617 (-80.1918) "KMIA"),
   ("Dallas", CityInfo.mk "Dallas" 32.7767 (-96.7970) "KDFW"),
   ("Seattle", CityInfo.mk "Seattle" 47.6062 (-122.3321) "KSEA")]

/-- A temperature bucket with optional open bounds (spec §3, `OutcomeBucket`
range). -/
structure TempBucket where
  lo : Option Int
  hi : Option Int
deriving DecidableEq, Repr

/-- A parsed market outcome (`edge-detector`'s `MarketOutcome` as consumed by
`scanner.ts`: a token id, a bucket, and a price). -/
structure MarketOutcome where
  tokenId : String
  bucket : TempBucket
  price : ℚ
deriving DecidableEq, Repr

/-- A normalized weather market (`edge-detector`'s `WeatherMarket` as
constructed by `WeatherScanner.parseWeatherMarket`). -/
structure WeatherMarket where
  marketId : String
  conditionId : String
  city : String
  cityCode : String
  targetDate : String
  outcomes : List MarketOutcome
  question : String
deriving DecidableEq, Repr

/-- A detected mispricing (spec §3, `Opportunity`). -/
structure WeatherOpportunity where
  marketId : String
  city : String
  targetDate : String
  tokenId : String
  marketPrice : ℚ
  fairProbability : ℚ
  edge : ℚ
deriving DecidableEq, Repr

/-- A raw market outcome/token record as served by the exchange API, with the
field aliases `parseOutcomes` probes (`scanner.ts` lines 211-221).  Absent
fields are `none`; numeric price fields are embedded as exact rationals. -/
structure RawOutcome where
  outcome : Option String
  name : Option String
  title : Option String
  tokenId : Option String
  token_id : Option String
  id : Option String
  price : Option ℚ
  lastTradePrice : Option ℚ
deriving DecidableEq, Repr

/-- A raw market record as served by the exchange API, with the field aliases
`parseWeatherMarket` and `extractTargetDate` probe (`scanner.ts` lines
126-164, 169-200).  The raw `endDate` string is embedded by its millisecond
timestamp. -/
structure RawMarket where
  question : Option String
  title : Option String
  description : Option String
  slug : Option String
  endDate : Option Int
  outcomes : Option (List RawOutcome)
  tokens : Option (List RawOutcome)
  id : Option String
  conditionId : Option String
deriving DecidableEq, Repr

/-! ## The edge-detector module (spec-modelled)

The repository's `src/weather/edge-detector.ts` is imported by `scanner.ts`
(`WeatherMarket`, `MarketOutcome`, `parseTempBucket`, `detectOpportunities`,
`MIN_EDGE_THRESHOLD`) but is not among the provided sources, so its
definitions are modelled from the spec. -/

/-- Modelled from the spec: `MIN_EDGE_THRESHOLD` is defined in the missing
`edge-detector` module; spec §4.3 calls it "a fixed constant, e.g. 0.05". -/
def MIN_EDGE_THRESHOLD : ℚ := 1/20

/-- Modelled from the spec: the bucket-label parser of the missing
`edge-detector` module.  Spec §4.2 step 4 and §3 describe it as turning free
text like "70-72°F", "Above 95°F", "Below 40°F", "95°F or above" into a
numeric range with optional open bounds, rejecting inverted bounds
(spec §4.3 edge cases). -/
def parseTempBucket (label : String) : Option TempBucket :=
  let cs := (toLowerStr label).toList
  let num : List Char → Option (Int × List Char) := fun l =>
    match l.span Char.isDigit with
    | (ds, r) => if ds.isEmpty then none else some ((digitsVal ds : Int), r)
  if startsWithL "above ".toList cs then
    match num (cs.drop 6) with
    | some (n, _) => some (TempBucket.mk (some n) none)
    | none => none
  else if startsWithL "below ".toList cs then
    match num (cs.drop 6) with
    | some (n, _) => some (TempBucket.mk none (some n))
    | none => none
  else
    match num cs with
    | none => none
    | some (a, r1) =>
      match r1 with
      | '-' :: r2 =>
        match num r2 with
        | some (b, _) =>
          if a ≤ b then some (TempBucket.mk (some a) (some b)) else none
        | none => none
      | _ =>
        if containsL " or above".toList r1 then some (TempBucket.mk (some a) none)
        else if containsL " or below".toList r1 then some (TempBucket.mk none (some a))
        else none

/-- Build the `Opportunity` value for one underpriced bucket (spec §3:
market identifier, city, target date, token, price, fair probability, and
edge = fair probability − market price). -/
def mkOpportunity (m : WeatherMarket) (o : MarketOutcome) (fair : ℚ) : WeatherOpportunity :=
  WeatherOpportunity.mk m.marketId m.city m.targetDate o.tokenId o.price fair
    (fair - o.price)

/-- Modelled from the spec: `detectOpportunities` of the missing
`edge-detector` module.  Per spec §4.3 it computes, for each outcome bucket,
a fair probability from the forecast, the edge = fair probability − market
price, and emits an Opportunity iff edge ≥ `MIN_EDGE_THRESHOLD`, in
bucket-iteration order.  Per spec §9 the probability model itself is a
replaceable policy behind the interface `forecast, bucket → probability`,
passed here as the `fairProb` parameter. -/
def detectOpportunities (fairProb : DailyForecast → TempBucket → ℚ)
    (m : WeatherMarket) (f : DailyForecast) : List WeatherOpportunity :=
  m.outcomes.filterMap fun o =>
    if MIN_EDGE_THRESHOLD ≤ fairProb f o.bucket - o.price then
      some (mkOpportunity m o (fairProb f o.bucket))
    else none

/-! ## The NWS forecast client (`src/index.ts`, third document) -/

/-- Confidence tier from the forecast-horizon hours (`src/index.ts` lines
435-444): `≤24 → very_high`, `≤48 → high`, `≤72 → medium`, else `low`. -/
def confidenceOf (h : ℚ) : Confidence :=
  if h ≤ 24 then Confidence.very_high
  else if h ≤ 48 then Confidence.high
  else if h ≤ 72 then Confidence.medium
  else Confidence.low

/-- Clamped forecast lead time in hours (`src/index.ts` line 432):
`Math.max(0, (targetDate.getTime() - now.getTime()) / (1000 * 60 * 60))`. -/
def hoursUntilOf (targetMs nowMs : Int) : ℚ :=
  max 0 (Rat.divInt (targetMs - nowMs) 3600000)

/-- Aggregate the hourly periods already filtered to the target date into a
`DailyForecast` (`src/index.ts` lines 420-459): `none` when no period
matched, otherwise the max/min temperature, the lead-time confidence, and a
representative short forecast preferring a daytime period. -/
def aggregateDaily (targetMs nowMs : Int) (dayForecasts : List HourlyForecast) :
    Option DailyForecast :=
  match dayForecasts with
  | [] => none
  | g :: gs =>
    let restTemps := gs.map HourlyForecast.temperature
    let hoursUntil := hoursUntilOf targetMs nowMs
    let daytime := (g :: gs).filter HourlyForecast.isDaytime
    some (DailyForecast.mk (msToIsoDate targetMs)
      (restTemps.foldl max g.temperature)
      (restTemps.foldl min g.temperature)
      (confidenceOf hoursUntil)
      (jsRound hoursUntil)
      (match daytime with
       | [] => g.shortForecast
       | d :: _ => d.shortForecast))

/-- `NWSClient.getDailyHigh` (`src/index.ts` lines 404-464).  The city is
looked up first and an unknown city throws; then the hourly forecast fetch
(whose outcome is the explicit `hourly` input; a provider error rethrows)
is filtered to the periods whose UTC calendar date equals the target
date's, and aggregated. -/
def getDailyHigh (cityCode : String) (targetMs nowMs : Int)
    (hourly : Except String (List HourlyForecast)) :
    Except String (Option DailyForecast) :=
  match List.lookup cityCode CITIES with
  | none => Except.error ("Unknown city: " ++ cityCode)
  | some _ =>
    match hourly with
    | Except.error e => Except.error e
    | Except.ok periods =>
      Except.ok (aggregateDaily targetMs nowMs
        (periods.filter fun f => msToIsoDate f.startTimeMs == msToIsoDate targetMs))

/-- `NWSClient.getStdDev` (`src/index.ts` lines 491-499): the standard
deviation assumed for each confidence tier. -/
def getStdDev (confidence : Confidence) : ℚ :=
  match confidence with
  | Confidence.very_high => 1.5
  | Confidence.high => 2.0
  | Confidence.medium => 3.0
  | Confidence.low => 4.5

/-! ## The weather scanner (`src/weather/scanner.ts`) -/

/-- `TEMP_KEYWORDS` (`scanner.ts` lines 18-25). -/
def TEMP_KEYWORDS : List String :=
  ["temperature", "high temperature", "daily high", "degrees", "°F", "°f"]

/-- `CITY_VARIATIONS` (`scanner.ts` lines 28-35), in insertion order. -/
def CITY_VARIATIONS : List (String × List String) :=
  [("NYC", ["new york", "nyc", "manhattan", "central park"]),
   ("LA", ["los angeles", "la", "lax"]),
   ("Chicago", ["chicago", "ord"]),
   ("Miami", ["miami", "mia"]),
   ("Dallas", ["dallas", "dfw", "fort worth"]),
   ("Seattle", ["seattle", "sea"])]

/-- The lowercased question text `parseWeatherMarket` works on
(`scanner.ts` line 127): `(market.question || market.title || '').toLowerCase()`. -/
def questionText (m : RawMarket) : String :=
  toLowerStr (jsStrOr m.question (jsStrOr m.title ""))

/-- The temperature-keyword test of `parseWeatherMarket` (`scanner.ts` line
130): `TEMP_KEYWORDS.some(kw => question.includes(kw.toLowerCase()))`.
Note that only the question/title text is searched. -/
def isTempMarket (m : RawMarket) : Bool :=
  TEMP_KEYWORDS.any fun kw => containsL (toLowerStr kw).toList (questionText m).toList

/-- Try the four date patterns in order (`scanner.ts` lines 184-194): for the
first pattern that matches, feed the matched text to `new Date(...)`; keep
the result when valid, otherwise fall through to the next pattern. -/
def tryDatePatterns (ctxYear : Int) (q : List Char) :
    List (List Char → Option (List Char)) → Option String
  | [] => none
  | p :: ps =>
    match scanMatch p q with
    | some matched =>
      match jsParseDate ctxYear (String.mk matched) with
      | some iso => some iso
      | none => tryDatePatterns ctxYear q ps
    | none => tryDatePatterns ctxYear q ps

/-- The ordered pattern list of `extractTargetDate` (`scanner.ts` lines
177-182). -/
def datePatternMatchers : List (List Char → Option (List Char)) :=
  [matchIsoAt, matchSlashAt,
   matchMonthListAt fullMonthNames false,
   matchMonthListAt abbrevMonthNames true]

/-- `WeatherScanner.extractTargetDate` (`scanner.ts` lines 169-200): prefer
the record's explicit end date, then the first date pattern matching the
question that parses to a valid date, and default to tomorrow. -/
def extractTargetDate (nowMs : Int) (question : String) (m : RawMarket) : String :=
  match m.endDate with
  | some endMs => msToIsoDate endMs
  | none =>
    match tryDatePatterns (yearOfMs nowMs) question.toList datePatternMatchers with
    | some iso => iso
    | none => msToIsoDate (nowMs + 86400000)

/-- The outcome list `parseOutcomes` iterates (`scanner.ts` line 209):
`market.outcomes || market.tokens || []`. -/
def jsOutcomesList (m : RawMarket) : List RawOutcome :=
  match m.outcomes with
  | some l => l
  | none =>
    match m.tokens with
    | some l => l
    | none => []

/-- The label alias chain of `parseOutcomes` (`scanner.ts` line 212):
`outcome.outcome || outcome.name || outcome.title || ''`. -/
def rawLabel (o : RawOutcome) : String :=
  jsStrOr o.outcome (jsStrOr o.name (jsStrOr o.title ""))

/-- The token-id alias chain of `parseOutcomes` (`scanner.ts` line 217):
`outcome.tokenId || outcome.token_id || outcome.id` (absent → empty). -/
def rawTokenId (o : RawOutcome) : String :=
  jsStrOr o.tokenId (jsStrOr o.token_id (jsStrOr o.id ""))

/-- The price of a raw outcome (`scanner.ts` line 219):
`parseFloat(outcome.price || outcome.lastTradePrice || '0.5')`. -/
def rawPrice (o : RawOutcome) : ℚ :=
  jsNumOr o.price (jsNumOr o.lastTradePrice (1/2))

/-- `WeatherScanner.parseOutcomes` (`scanner.ts` lines 205-225): keep each
outcome whose label parses to a temperature bucket, with its token id and
price. -/
def parseOutcomes (m : RawMarket) : List MarketOutcome :=
  (jsOutcomesList m).filterMap fun o =>
    match parseTempBucket (rawLabel o) with
    | some bucket => some (MarketOutcome.mk (rawTokenId o) bucket (rawPrice o))
    | none => none

/-- `WeatherScanner.parseWeatherMarket` (`scanner.ts` lines 126-164): keyword
filter on the question text, first matching city variation, target date,
parsed outcomes; absent when the keyword filter, the city match or the
outcome parse fails.  (`extractTargetDate` never returns a falsy string, so
the source's `if (!targetDate)` guard is vacuous.) -/
def parseWeatherMarket (nowMs : Int) (m : RawMarket) : Option WeatherMarket :=
  if !isTempMarket m then none
  else
    match CITY_VARIATIONS.find? (fun p =>
        p.2.any fun v => containsL v.toList (questionText m).toList) with
    | none => none
    | some (code, _) =>
      let cityName :=
        match List.lookup code CITIES with
        | some ci => ci.name
        | none => ""
      let targetDate := extractTargetDate nowMs (questionText m) m
      let outcomes := parseOutcomes m
      if outcomes.isEmpty then none
      else
        some (WeatherMarket.mk (jsStrOr m.id (jsStrOr m.conditionId ""))
          (jsStrOr m.conditionId "") cityName code targetDate outcomes
          (jsStrOr m.question (jsStrOr m.title "")))

/-- The per-outcome refresh step of `updateMarketPrices` (`scanner.ts` lines
232-237): on a successful fetch keep the new price only when positive; on a
per-token failure keep the previous price. -/
def refreshOutcome (getPrice : String → Option ℚ) (o : MarketOutcome) : MarketOutcome :=
  match getPrice o.tokenId with
  | none => o
  | some p => if 0 < p then MarketOutcome.mk o.tokenId o.bucket p else o

/-- `WeatherScanner.updateMarketPrices` (`scanner.ts` lines 230-240): refresh
every outcome price; `getPrice t = none` models a throwing
`polyClient.getPrice(t)`, which is caught per token. -/
def updateMarketPrices (getPrice : String → Option ℚ) (m : WeatherMarket) : WeatherMarket :=
  WeatherMarket.mk m.marketId m.conditionId m.city m.cityCode m.targetDate
    (m.outcomes.map (refreshOutcome getPrice)) m.question

/-! ## Market discovery and the scan orchestrator (`scanner.ts`)

The outcome of each external HTTP call is an explicit input:
* `none` models a call that throws (network failure or a `json()` failure);
* `some none` models a non-ok HTTP response;
* `some (some data)` models a successful response with payload `data`. -/

/-- The keyword loop body of `WeatherScanner.searchBroadly` (`scanner.ts`
lines 97-114): a throwing keyword fetch aborts the whole loop and the
enclosing catch returns the empty list; a non-ok response skips the
keyword; a successful response contributes its parsed markets, deduplicated
by market id. -/
def searchBroadlyGo (nowMs : Int) (broad : String → Option (Option (List RawMarket))) :
    List String → List WeatherMarket → List WeatherMarket
  | [], acc => acc
  | k :: ks, acc =>
    match broad k with
    | none => []
    | some none => searchBroadlyGo nowMs broad ks acc
    | some (some data) =>
      searchBroadlyGo nowMs broad ks
        (data.foldl (fun ms raw =>
          match parseWeatherMarket nowMs raw with
          | some wm =>
            if ms.any (fun m => m.marketId == wm.marketId) then ms else ms ++ [wm]
          | none => ms) acc)

/-- `WeatherScanner.searchBroadly` (`scanner.ts` lines 92-121): the
keyword-based fallback discovery query.  Any thrown error is caught and
yields the empty list — this function never fails. -/
def searchBroadly (nowMs : Int) (broad : String → Option (Option (List RawMarket))) :
    List WeatherMarket :=
  searchBroadlyGo nowMs broad ["temperature", "high", "weather"] []

/-- `WeatherScanner.findTemperatureMarkets` (`scanner.ts` lines 56-87): the
primary tag query; on a non-ok response or a thrown error it falls back to
`searchBroadly`.  Since `searchBroadly` never fails, discovery as a whole
never fails either. -/
def findTemperatureMarkets (nowMs : Int)
    (primary : Option (Option (List RawMarket)))
    (broad : String → Option (Option (List RawMarket))) : List WeatherMarket :=
  match primary with
  | some (some data) => data.filterMap (parseWeatherMarket nowMs)
  | some none => searchBroadly nowMs broad
  | none => searchBroadly nowMs broad

/-- The external world of one scan: the outcome of the primary discovery
fetch, of each fallback keyword fetch, of each city's hourly-forecast fetch
pipeline, and of each token's price fetch (`none` models a throw), plus the
fair-probability policy of the spec-modelled edge detector. -/
structure ScanWorld where
  primary : Option (Option (List RawMarket))
  broad : String → Option (Option (List RawMarket))
  hourly : String → Except String (List HourlyForecast)
  price : String → Option ℚ
  fairProb : DailyForecast → TempBucket → ℚ

/-- The result record of a scan (`scanner.ts`, `WeatherScanResult`); the
`scannedAt` timestamp is kept in milliseconds. -/
structure WeatherScanResult where
  markets : List WeatherMarket
  forecasts : List (String × DailyForecast)
  opportunities : List WeatherOpportunity
  scannedAtMs : Int
deriving DecidableEq, Repr

/-- `[...new Set(xs)]` on strings: deduplicate preserving first occurrence. -/
def dedupStr (l : List String) : List String :=
  l.foldl (fun acc s => if acc.contains s then acc else acc ++ [s]) []

/-- Stable insertion into a list sorted by descending edge. -/
def insertByEdge (o : WeatherOpportunity) :
    List WeatherOpportunity → List WeatherOpportunity
  | [] => [o]
  | x :: xs => if x.edge < o.edge then o :: x :: xs else x :: insertByEdge o xs

/-- `result.opportunities.sort((a, b) => b.edge - a.edge)`: stable sort by
descending edge. -/
def sortByEdgeDesc (l : List WeatherOpportunity) : List WeatherOpportunity :=
  l.foldr insertByEdge []

/-- Phases 2 and 3 of `WeatherScanner.scan` (`scanner.ts` lines 267-304):
fetch a forecast per distinct city code, skipping (not aborting on) cities
whose forecast fetch fails or returns no data; then, for every market with
a matching forecast, refresh its prices and run the detector; finally sort
all opportunities by descending edge. -/
def scanDetectPhase (w : ScanWorld) (nowMs scanMs : Int)
    (markets : List WeatherMarket) : WeatherScanResult :=
  let cityCodes := dedupStr (markets.map WeatherMarket.cityCode)
  let forecasts := cityCodes.filterMap fun c =>
    match getDailyHigh c scanMs nowMs (w.hourly c) with
    | Except.ok (some f) => some (c, f)
    | Except.ok none => none
    | Except.error _ => none
  let step := markets.foldl (fun acc m =>
    match List.lookup m.cityCode forecasts with
    | none => (acc.1 ++ [m], acc.2)
    | some f =>
      let m2 := updateMarketPrices w.price m
      (acc.1 ++ [m2], acc.2 ++ detectOpportunities w.fairProb m2 f)) ([], [])
  WeatherScanResult.mk step.1 forecasts (sortByEdgeDesc step.2) nowMs

/-- `WeatherScanner.scan` (`scanner.ts` lines 245-309).  The scan date is the
given target date or tomorrow's midnight; discovery never fails (see
`findTemperatureMarkets`), an empty market list is an early successful
return, and every downstream failure is caught per city or per token, so
the `catch`/rethrow wrapper of the source is unreachable and every run
returns `Except.ok`. -/
def scan (w : ScanWorld) (nowMs : Int) (targetMs? : Option Int) :
    Except String WeatherScanResult :=
  let scanMs := targetMs?.getD (tomorrowMidnightMs nowMs)
  let markets := findTemperatureMarkets nowMs w.primary w.broad
  if markets.isEmpty then Except.ok (WeatherScanResult.mk markets [] [] nowMs)
  else Except.ok (scanDetectPhase w nowMs scanMs markets)

/-! ## Decidable equality for embedded call results -/

instance {ε α : Type} [DecidableEq ε] [DecidableEq α] : DecidableEq (Except ε α) := fun a b =>
  match a, b with
  | Except.ok x, Except.ok y =>
    if h : x = y then isTrue (by rw [h]) else isFalse (by intro hc; cases hc; exact h rfl)
  | Except.error x, Except.error y =>
    if h : x = y then isTrue (by rw [h]) else isFalse (by intro hc; cases hc; exact h rfl)
  | Except.ok _, Except.error _ => isFalse (by intro hc; cases hc)
  | Except.error _, Except.ok _ => isFalse (by intro hc; cases hc)

/-! ## Concrete example values used by witnesses and counterexamples -/

/-- A raw market record with no fields at all. -/
def noEndMarket : RawMarket :=
  RawMarket.mk none none none none none none none none none

/-- A raw market whose question has no temperature keyword, while its
description and slug do contain one. -/
def cexMarket : RawMarket :=
  RawMarket.mk (some "Will NYC see snow on Dec 25?") none
    (some "Resolves YES from the recorded high temperature at Central Park")
    (some "nyc-high-temperature-dec-25") none
    (some [RawOutcome.mk (some "70-72°F") none none (some "t1") none none none none])
    none (some "mk1") (some "cond1")

/-- A scan world in which the primary discovery fetch and every fallback
keyword fetch throw, every forecast fetch fails and every price fetch
throws: total external failure. -/
def cexScanWorld : ScanWorld :=
  ScanWorld.mk none (fun _ => none) (fun _ => Except.error "down") (fun _ => none)
    (fun _ _ => 0)

/-- A bucket for the detector witness. -/
def c1Bucket : TempBucket := TempBucket.mk (some 70) (some 72)

/-- An outcome priced at 1/2, so that a fair probability of 11/20 gives an
edge exactly equal to `MIN_EDGE_THRESHOLD`. -/
def c1Outcome : MarketOutcome := MarketOutcome.mk "tok1" c1Bucket (1/2)

/-- A one-outcome market for the detector witness. -/
def c1Market : WeatherMarket :=
  WeatherMarket.mk "m1" "c1" "New York City" "NYC" "2025-12-25" [c1Outcome]
    "nyc high temperature dec 25"

/-- A forecast for the detector witness. -/
def c1Forecast : DailyForecast :=
  DailyForecast.mk "2025-12-25" 75 60 Confidence.very_high 10 "Sunny"

/-- A fair-probability policy that prices every bucket at 11/20. -/
def c1Fair : DailyForecast → TempBucket → ℚ := fun _ _ => 11/20

/-- A two-outcome market for the price-refresh witness. -/
def c8O1 : MarketOutcome := MarketOutcome.mk "a" (TempBucket.mk (some 70) (some 72)) (2/5)

/-- Second outcome of the price-refresh witness market. -/
def c8O2 : MarketOutcome := MarketOutcome.mk "b" (TempBucket.mk (some 73) (some 75)) (1/5)

/-- The price-refresh witness market. -/
def c8Market : WeatherMarket :=
  WeatherMarket.mk "m8" "c8" "Chicago" "Chicago" "2025-12-25" [c8O1, c8O2] "q"

/-- A price fetcher that throws for token "a" and returns 3/5 for token "b". -/
def c8Price : String → Option ℚ := fun t => if t == "b" then some (3/5) else none

/-- A raw outcome with a parseable bucket label and no price fields. -/
def c10Out : RawOutcome :=
  RawOutcome.mk (some "70-72°F") none none (some "t10") none none none none

/-- The bucket `c10Out`'s label parses to. -/
def c10Bucket : TempBucket := TempBucket.mk (some 70) (some 72)

/-- A raw market containing only `c10Out`. -/
def c10Market : RawMarket :=
  RawMarket.mk (some "nyc high temperature dec 25") none none none none
    (some [c10Out]) none (some "m10") (some "c10")

/-- The `CityInfo` record of NYC in `CITIES`. -/
def nycCity : CityInfo := CityInfo.mk "New York City" 40.7128 (-74.0060) "KNYC"

/-- A one-period hourly fetch result on 1970-01-02 (timestamp 90000000). -/
def c2Periods : List HourlyForecast := [HourlyForecast.mk 90000000 70 true "Sunny"]

/-- The daily forecast `getDailyHigh` aggregates from `c2Periods` for target
86400000 (1970-01-02) at now 0: lead time exactly 24 hours. -/
def c2Forecast : DailyForecast :=
  DailyForecast.mk "1970-01-02" 70 70 Confidence.very_high 24 "Sunny"

/-- Three periods: two on the target date 1970-01-02 (temps 70 and 75) and
one on 1970-01-01 (temp 99, which must be ignored). -/
def c6Periods : List HourlyForecast :=
  [HourlyForecast.mk 90000000 70 true "Sunny",
   HourlyForecast.mk 93600000 75 false "Clear",
   HourlyForecast.mk 10000000 99 true "Other"]

/-- The temperatures of the periods whose UTC calendar date equals the target
date's — the values over which `getDailyHigh` takes its max and min. -/
def matchingTemps (targetMs : Int) (periods : List HourlyForecast) : List Int :=
  (periods.filter fun f => msToIsoDate f.startTimeMs == msToIsoDate targetMs).map
    HourlyForecast.temperature

/-! ## Helper lemmas -/

/-- `get?` commutes with `map`. -/
theorem getq_map {α β : Type} (f : α → β) (l : List α) (n : Nat) :
    (l.map f).get? n = (l.get? n).map f := by
  induction l generalizing n with
  | nil => cases n <;> rfl
  | cons a t ih => cases n with
    | zero => rfl
    | succ k => simp [ih k]

/-- A left fold by `max` yields its seed or a list element. -/
theorem foldl_max_choice (l : List Int) (a : Int) :
    l.foldl max a = a ∨ l.foldl max a ∈ l := by
  induction l generalizing a with
  | nil => exact Or.inl rfl
  | cons b t ih =>
    rcases ih (max a b) with h | h
    · rcases max_choice a b with hm | hm
      · exact Or.inl (by rw [List.foldl_cons, h, hm])
      · exact Or.inr (by rw [List.foldl_cons, h, hm]; exact List.mem_cons_self b t)
    · exact Or.inr (List.mem_cons_of_mem b h)

/-- The seed is below a left fold by `max`. -/
theorem le_foldl_max_init (l : List Int) (a : Int) : a ≤ l.foldl max a := by
  induction l generalizing a with
  | nil => exact le_refl a
  | cons b t ih => exact le_trans (le_max_left a b) (ih (max a b))

/-- Every list element is below a left fold by `max`. -/
theorem le_foldl_max_mem (l : List Int) (a x : Int) : x ∈ l → x ≤ l.foldl max a := by
  induction l generalizing a with
  | nil => intro hx; cases hx
  | cons b t ih =>
    intro hx
    rw [List.foldl_cons]
    rcases List.mem_cons.1 hx with rfl | h
    · exact le_trans (le_max_right a x) (le_foldl_max_init t (max a x))
    · exact ih (max a b) h

/-- A left fold by `min` yields its seed or a list element. -/
theorem foldl_min_choice (l : List Int) (a : Int) :
    l.foldl min a = a ∨ l.foldl min a ∈ l := by
  induction l generalizing a with
  | nil => exact Or.inl rfl
  | cons b t ih =>
    rcases ih (min a b) with h | h
    · rcases min_choice a b with hm | hm
      · exact Or.inl (by rw [List.foldl_cons, h, hm])
      · exact Or.inr (by rw [List.foldl_cons, h, hm]; exact List.mem_cons_self b t)
    · exact Or.inr (List.mem_cons_of_mem b h)

/-- A left fold by `min` is below its seed. -/
theorem foldl_min_le_init (l : List Int) (a : Int) : l.foldl min a ≤ a := by
  induction l generalizing a with
  | nil => exact le_refl a
  | cons b t ih => exact le_trans (ih (min a b)) (min_le_left a b)

/-- A left fold by `min` is below every list element. -/
theorem foldl_min_le_mem (l : List Int) (a x : Int) : x ∈ l → l.foldl min a ≤ x := by
  induction l generalizing a with
  | nil => intro hx; cases hx
  | cons b t ih =>
    intro hx
    rw [List.foldl_cons]
    rcases List.mem_cons.1 hx with rfl | h
    · exact le_trans (foldl_min_le_init t (min a x)) (min_le_right a x)
    · exact ih (min a b) h


/-- A left fold by `max` over a list is a member of the seed-cons list. -/
theorem foldl_max_mem_cons (a : Int) (l : List Int) : l.foldl max a ∈ a :: l := by
  rcases foldl_max_choice l a with h | h
  · rw [h]; exact List.mem_cons_self a l
  · exact List.mem_cons_of_mem a h

/-- A left fold by `max` bounds every member of the seed-cons list. -/
theorem foldl_max_ge_cons (a : Int) (l : List Int) (x : Int) (hx : x ∈ a :: l) :
    x ≤ l.foldl max a := by
  rcases List.mem_cons.1 hx with rfl | h
  · exact le_foldl_max_init l x
  · exact le_foldl_max_mem l a x h

/-- A left fold by `min` over a list is a member of the seed-cons list. -/
theorem foldl_min_mem_cons (a : Int) (l : List Int) : l.foldl min a ∈ a :: l := by
  rcases foldl_min_choice l a with h | h
  · rw [h]; exact List.mem_cons_self a l
  · exact List.mem_cons_of_mem a h

/-- A left fold by `min` is below every member of the seed-cons list. -/
theorem foldl_min_le_cons (a : Int) (l : List Int) (x : Int) (hx : x ∈ a :: l) :
    l.foldl min a ≤ x := by
  rcases List.mem_cons.1 hx with rfl | h
  · exact foldl_min_le_init l x
  · exact foldl_min_le_mem l a x h

/-! ## Claim theorems -/

/-- C3: `NWSClient.getStdDev` assigns exactly 1.5 to very_high, 2.0 to high,
3.0 to medium and 4.5 to low, and these values are strictly increasing as
confidence decreases. -/
theorem getStdDev_values_strictMono :
    getStdDev Confidence.very_high = 1.5 ∧ getStdDev Confidence.high = 2.0 ∧
    getStdDev Confidence.medium = 3.0 ∧ getStdDev Confidence.low = 4.5 ∧
    getStdDev Confidence.very_high < getStdDev Confidence.high ∧
    getStdDev Confidence.high < getStdDev Confidence.medium ∧
    getStdDev Confidence.medium < getStdDev Confidence.low := by
  refine ⟨rfl, rfl, rfl, rfl, ?_, ?_, ?_⟩ <;> norm_num [getStdDev]

/-- C9: for every city code outside the tracked-city table, `getDailyHigh`
throws an "Unknown city" error rather than returning absent, and the result
does not depend on the (never issued) hourly-forecast fetch, which is the
shallow-embedding statement of "before issuing any external call". -/
theorem getDailyHigh_unknown_city_errors (cityCode : String)
    (h : List.lookup cityCode CITIES = none) (targetMs nowMs : Int)
    (hourly : Except String (List HourlyForecast)) :
    getDailyHigh cityCode targetMs nowMs hourly =
      Except.error ("Unknown city: " ++ cityCode) := by
  unfold getDailyHigh
  rw [h]

/-- Witness for C9 at the concrete untracked city "Boston", with two
different fetch outcomes to exhibit the independence. -/
theorem getDailyHigh_unknown_city_errors_witness :
    List.lookup "Boston" CITIES = none ∧
    getDailyHigh "Boston" 86400000 0 (Except.ok []) =
      Except.error ("Unknown city: " ++ "Boston") ∧
    getDailyHigh "Boston" 86400000 0 (Except.error "network down") =
      Except.error ("Unknown city: " ++ "Boston") :=
  ⟨by decide,
   getDailyHigh_unknown_city_errors "Boston" (by decide) 86400000 0 (Except.ok []),
   getDailyHigh_unknown_city_errors "Boston" (by decide) 86400000 0
     (Except.error "network down")⟩

/-- C1: for every normalized market, matching forecast and fair-probability
policy, `detectOpportunities` emits the Opportunity of an outcome bucket iff
its edge = fair probability − market price is ≥ `MIN_EDGE_THRESHOLD`; the
boundary is inclusive because the comparison is `≤`. -/
theorem detectOpportunities_emits_iff (fp : DailyForecast → TempBucket → ℚ)
    (m : WeatherMarket) (f : DailyForecast) (o : MarketOutcome)
    (h : o ∈ m.outcomes) :
    mkOpportunity m o (fp f o.bucket) ∈ detectOpportunities fp m f ↔
      MIN_EDGE_THRESHOLD ≤ fp f o.bucket - o.price := by
  constructor
  · intro hmem
    rcases List.mem_filterMap.1 hmem with ⟨a, _, hg⟩
    by_cases hc : MIN_EDGE_THRESHOLD ≤ fp f a.bucket - a.price
    · rw [if_pos hc] at hg
      have heq := Option.some.inj hg
      have hedge : fp f a.bucket - a.price = fp f o.bucket - o.price :=
        congrArg WeatherOpportunity.edge heq
      exact hedge ▸ hc
    · rw [if_neg hc] at hg
      cases hg
  · intro hc
    exact List.mem_filterMap.2 ⟨o, h, by rw [if_pos hc]⟩

/-- Witness for C1 at a concrete market whose single bucket has edge exactly
equal to `MIN_EDGE_THRESHOLD` (fair 11/20, price 1/2): the emitted list
contains its Opportunity, exhibiting the inclusive boundary. -/
theorem detectOpportunities_emits_iff_witness :
    c1Outcome ∈ c1Market.outcomes ∧
    MIN_EDGE_THRESHOLD = c1Fair c1Forecast c1Outcome.bucket - c1Outcome.price ∧
    (mkOpportunity c1Market c1Outcome (c1Fair c1Forecast c1Outcome.bucket) ∈
        detectOpportunities c1Fair c1Market c1Forecast ↔
      MIN_EDGE_THRESHOLD ≤ c1Fair c1Forecast c1Outcome.bucket - c1Outcome.price) :=
  ⟨by with_unfolding_all decide, by with_unfolding_all decide,
   detectOpportunities_emits_iff c1Fair c1Market c1Forecast c1Outcome
     (by with_unfolding_all decide)⟩

/-- C8: `updateMarketPrices` never fails the market: it keeps every outcome
(same length), an outcome whose price fetch throws retains its previous
price, and every other outcome with a successful positive fetch is still
refreshed to the fetched price. -/
theorem updateMarketPrices_retains_on_failure (gp : String → Option ℚ)
    (m : WeatherMarket) (i : Nat) (o : MarketOutcome)
    (hi : m.outcomes.get? i = some o) (hf : gp o.tokenId = none) :
    (updateMarketPrices gp m).outcomes.length = m.outcomes.length ∧
    (updateMarketPrices gp m).outcomes.get? i = some o ∧
    (∀ j o2 p, m.outcomes.get? j = some o2 → gp o2.tokenId = some p → 0 < p →
      (updateMarketPrices gp m).outcomes.get? j =
        some (MarketOutcome.mk o2.tokenId o2.bucket p)) := by
  refine ⟨by simp [updateMarketPrices], ?_, ?_⟩
  · rw [updateMarketPrices, getq_map, hi]
    simp [refreshOutcome, hf]
  · intro j o2 p hj hp hpos
    rw [updateMarketPrices, getq_map, hj]
    simp [refreshOutcome, hp, hpos]

/-- Witness for C8: a two-outcome market whose first token's price fetch
throws and whose second fetches 3/5. -/
theorem updateMarketPrices_retains_on_failure_witness :
    c8Market.outcomes.get? 0 = some c8O1 ∧ c8Price c8O1.tokenId = none ∧
    ((updateMarketPrices c8Price c8Market).outcomes.length =
        c8Market.outcomes.length ∧
      (updateMarketPrices c8Price c8Market).outcomes.get? 0 = some c8O1 ∧
      (∀ j o2 p, c8Market.outcomes.get? j = some o2 →
        c8Price o2.tokenId = some p → 0 < p →
        (updateMarketPrices c8Price c8Market).outcomes.get? j =
          some (MarketOutcome.mk o2.tokenId o2.bucket p))) :=
  ⟨by with_unfolding_all decide, by with_unfolding_all decide,
   updateMarketPrices_retains_on_failure c8Price c8Market 0 c8O1
     (by with_unfolding_all decide) (by with_unfolding_all decide)⟩

/-- C10: a raw outcome whose label parses to a bucket but which carries
neither a `price` nor a `lastTradePrice` field is kept by `parseOutcomes`
with the default price 1/2; and during a refresh a fetched price of exactly
0 is discarded in favour of the previous price. -/
theorem parseOutcomes_default_price_and_zero_discard (m : RawMarket)
    (o : RawOutcome) (b : TempBucket) (hm : o ∈ jsOutcomesList m)
    (hp : o.price = none) (hl : o.lastTradePrice = none)
    (hb : parseTempBucket (rawLabel o) = some b) :
    MarketOutcome.mk (rawTokenId o) b (1/2) ∈ parseOutcomes m ∧
    (∀ gp m2 j o2, m2.outcomes.get? j = some o2 → gp o2.tokenId = some 0 →
      (updateMarketPrices gp m2).outcomes.get? j = some o2) := by
  constructor
  · refine List.mem_filterMap.2 ⟨o, hm, ?_⟩
    rw [hb]
    simp [rawPrice, hp, hl, jsNumOr]
  · intro gp m2 j o2 hj hzero
    rw [updateMarketPrices, getq_map, hj]
    simp [refreshOutcome, hzero]

/-- Witness for C10: the concrete outcome `c10Out` (label "70-72°F", no
price fields) inside `c10Market`. -/
theorem parseOutcomes_default_price_and_zero_discard_witness :
    c10Out ∈ jsOutcomesList c10Market ∧
    parseTempBucket (rawLabel c10Out) = some c10Bucket ∧
    (MarketOutcome.mk (rawTokenId c10Out) c10Bucket (1/2) ∈ parseOutcomes c10Market ∧
      (∀ gp m2 j o2, m2.outcomes.get? j = some o2 → gp o2.tokenId = some 0 →
        (updateMarketPrices gp m2).outcomes.get? j = some o2)) :=
  ⟨by with_unfolding_all decide, by with_unfolding_all decide,
   parseOutcomes_default_price_and_zero_discard c10Market c10Out c10Bucket
     (by with_unfolding_all decide) rfl rfl (by with_unfolding_all decide)⟩

/-- C2: whenever `getDailyHigh` returns a forecast, its confidence tier is
the deterministic function `confidenceOf` of the clamped lead-time hours
`max(0, targetDate − now)` only, whose boundaries are inclusive:
≤ 24 h → very_high, ≤ 48 h → high, ≤ 72 h → medium, otherwise low; in
particular exactly 24 h maps to very_high and 24 h plus one minute
(24 + 1/60 h) maps to high. -/
theorem getDailyHigh_confidence_tiers (cityCode : String) (targetMs nowMs : Int)
    (hourly : Except String (List HourlyForecast)) (fc : DailyForecast)
    (h : getDailyHigh cityCode targetMs nowMs hourly = Except.ok (some fc)) :
    fc.confidence = confidenceOf (hoursUntilOf targetMs nowMs) ∧
    hoursUntilOf targetMs nowMs = max 0 (Rat.divInt (targetMs - nowMs) 3600000) ∧
    (∀ q : ℚ, (q ≤ 24 → confidenceOf q = Confidence.very_high) ∧
      (24 < q → q ≤ 48 → confidenceOf q = Confidence.high) ∧
      (48 < q → q ≤ 72 → confidenceOf q = Confidence.medium) ∧
      (72 < q → confidenceOf q = Confidence.low)) ∧
    confidenceOf 24 = Confidence.very_high ∧
    confidenceOf (24 + 1/60) = Confidence.high := by
  refine ⟨?_, rfl, ?_, by decide, by with_unfolding_all decide⟩
  · unfold getDailyHigh at h
    split at h
    · exact Except.noConfusion h
    · split at h
      · exact Except.noConfusion h
      · have h2 := Except.ok.inj h
        unfold aggregateDaily at h2
        split at h2
        · exact Option.noConfusion h2
        · have h3 := Option.some.inj h2
          rw [← h3]
  · intro q
    refine ⟨?_, ?_, ?_, ?_⟩
    · intro h24
      simp [confidenceOf, h24]
    · intro h24 h48
      rw [confidenceOf, if_neg (by linarith), if_pos h48]
    · intro h48 h72
      rw [confidenceOf, if_neg (by linarith), if_neg (by linarith), if_pos h72]
    · intro h72
      rw [confidenceOf, if_neg (by linarith), if_neg (by linarith),
        if_neg (by linarith)]

/-- Witness for C2: a concrete successful `getDailyHigh` run for NYC with a
lead time of exactly 24 hours, whose forecast is tiered very_high. -/
theorem getDailyHigh_confidence_tiers_witness :
    getDailyHigh "NYC" 86400000 0 (Except.ok c2Periods) =
      Except.ok (some c2Forecast) ∧
    (c2Forecast.confidence = confidenceOf (hoursUntilOf 86400000 0) ∧
      hoursUntilOf 86400000 0 = max 0 (Rat.divInt (86400000 - 0) 3600000) ∧
      (∀ q : ℚ, (q ≤ 24 → confidenceOf q = Confidence.very_high) ∧
        (24 < q → q ≤ 48 → confidenceOf q = Confidence.high) ∧
        (48 < q → q ≤ 72 → confidenceOf q = Confidence.medium) ∧
        (72 < q → confidenceOf q = Confidence.low)) ∧
      confidenceOf 24 = Confidence.very_high ∧
      confidenceOf (24 + 1/60) = Confidence.high) :=
  ⟨by decide,
   getDailyHigh_confidence_tiers "NYC" 86400000 0 (Except.ok c2Periods) c2Forecast
     (by decide)⟩

/-- C6: for every tracked city, when every fetched hourly period falls on a
calendar date other than the target date, `getDailyHigh` returns absent
(`Except.ok none`), not an error; and when at least one period matches, it
returns a forecast whose `highTemp` is the maximum and whose `lowTemp` is
the minimum temperature among the matching periods. -/
theorem getDailyHigh_absent_or_extremes (cityCode : String) (ci : CityInfo)
    (targetMs nowMs : Int) (periods : List HourlyForecast)
    (hc : List.lookup cityCode CITIES = some ci) :
    ((∀ f ∈ periods, msToIsoDate f.startTimeMs ≠ msToIsoDate targetMs) →
      getDailyHigh cityCode targetMs nowMs (Except.ok periods) = Except.ok none) ∧
    (∀ f0 ∈ periods, msToIsoDate f0.startTimeMs = msToIsoDate targetMs →
      ∃ fc, getDailyHigh cityCode targetMs nowMs (Except.ok periods) =
          Except.ok (some fc) ∧
        fc.highTemp ∈ matchingTemps targetMs periods ∧
        (∀ t ∈ matchingTemps targetMs periods, t ≤ fc.highTemp) ∧
        fc.lowTemp ∈ matchingTemps targetMs periods ∧
        (∀ t ∈ matchingTemps targetMs periods, fc.lowTemp ≤ t)) := by
  constructor
  · intro hall
    have hfil : (periods.filter fun f =>
        msToIsoDate f.startTimeMs == msToIsoDate targetMs) = [] := by
      refine List.filter_eq_nil_iff.2 fun a ha => ?_
      simp [hall a ha]
    simp only [getDailyHigh, hc, hfil]
    rfl
  · intro f0 hf0 hdate
    have hmem : f0 ∈ periods.filter fun f =>
        msToIsoDate f.startTimeMs == msToIsoDate targetMs :=
      List.mem_filter.2 ⟨hf0, by simp [hdate]⟩
    rcases hsplit : periods.filter fun f =>
        msToIsoDate f.startTimeMs == msToIsoDate targetMs with _ | ⟨g, gs⟩
    · rw [hsplit] at hmem
      cases hmem
    · have htemps : matchingTemps targetMs periods =
          g.temperature :: gs.map HourlyForecast.temperature := by
        rw [matchingTemps, hsplit, List.map_cons]
      refine ⟨DailyForecast.mk (msToIsoDate targetMs)
          ((gs.map HourlyForecast.temperature).foldl max g.temperature)
          ((gs.map HourlyForecast.temperature).foldl min g.temperature)
          (confidenceOf (hoursUntilOf targetMs nowMs))
          (jsRound (hoursUntilOf targetMs nowMs))
          (match (g :: gs).filter HourlyForecast.isDaytime with
           | [] => g.shortForecast
           | d :: _ => d.shortForecast), ?_, ?_, ?_, ?_, ?_⟩
      · simp only [getDailyHigh, hc, hsplit]
        rfl
      · rw [htemps]
        exact foldl_max_mem_cons g.temperature (gs.map HourlyForecast.temperature)
      · rw [htemps]
        intro t ht
        exact foldl_max_ge_cons g.temperature (gs.map HourlyForecast.temperature) t ht
      · rw [htemps]
        exact foldl_min_mem_cons g.temperature (gs.map HourlyForecast.temperature)
      · rw [htemps]
        intro t ht
        exact foldl_min_le_cons g.temperature (gs.map HourlyForecast.temperature) t ht

/-- Witness for C6: NYC with three concrete periods, two on the target date
(temps 70 and 75) and one on the previous day (temp 99). -/
theorem getDailyHigh_absent_or_extremes_witness :
    List.lookup "NYC" CITIES = some nycCity ∧
    (((∀ f ∈ c6Periods, msToIsoDate f.startTimeMs ≠ msToIsoDate 86400000) →
        getDailyHigh "NYC" 86400000 0 (Except.ok c6Periods) = Except.ok none) ∧
      (∀ f0 ∈ c6Periods, msToIsoDate f0.startTimeMs = msToIsoDate 86400000 →
        ∃ fc, getDailyHigh "NYC" 86400000 0 (Except.ok c6Periods) =
            Except.ok (some fc) ∧
          fc.highTemp ∈ matchingTemps 86400000 c6Periods ∧
          (∀ t ∈ matchingTemps 86400000 c6Periods, t ≤ fc.highTemp) ∧
          fc.lowTemp ∈ matchingTemps 86400000 c6Periods ∧
          (∀ t ∈ matchingTemps 86400000 c6Periods, fc.lowTemp ≤ t))) :=
  ⟨rfl, getDailyHigh_absent_or_extremes "NYC" nycCity 86400000 0 c6Periods rfl⟩

/-- C4 counterexample: `cexMarket`'s description and slug contain the keyword
"temperature" while its question contains no keyword, yet
`parseWeatherMarket` returns absent — the keyword match reads only the
question/title text, refuting the claim that such a record is still
recognized. -/
theorem parseWeatherMarket_ignores_description_cex :
    parseWeatherMarket 0 cexMarket = none ∧
    containsL "temperature".toList
      (toLowerStr (jsStrOr cexMarket.description "")).toList = true ∧
    containsL "temperature".toList
      (toLowerStr (jsStrOr cexMarket.slug "")).toList = true ∧
    isTempMarket cexMarket = false :=
  ⟨by decide, by decide, by decide, by decide⟩

/-- C4 (amended): the first step of `parseWeatherMarket` lowercase-matches
only the question (falling back to title) against the fixed
temperature-keyword allowlist and returns absent when no keyword matches
there; the description and slug fields are never consulted, so a record
whose keyword occurs only in the description or slug is not recognized. -/
theorem parseWeatherMarket_matches_question_only (nowMs : Int) (m : RawMarket)
    (h : isTempMarket m = false) :
    parseWeatherMarket nowMs m = none ∧
    (∀ d s, parseWeatherMarket nowMs
        (RawMarket.mk m.question m.title d s m.endDate m.outcomes m.tokens
          m.id m.conditionId) = parseWeatherMarket nowMs m) := by
  constructor
  · simp [parseWeatherMarket, h]
  · intro d s
    rfl

/-- Witness for the amended C4 at the concrete record `cexMarket`. -/
theorem parseWeatherMarket_matches_question_only_witness :
    isTempMarket cexMarket = false ∧
    (parseWeatherMarket 0 cexMarket = none ∧
      (∀ d s, parseWeatherMarket 0
          (RawMarket.mk cexMarket.question cexMarket.title d s cexMarket.endDate
            cexMarket.outcomes cexMarket.tokens cexMarket.id cexMarket.conditionId) =
        parseWeatherMarket 0 cexMarket)) :=
  ⟨by decide, parseWeatherMarket_matches_question_only 0 cexMarket (by decide)⟩

/-- C7 counterexample: at a scan time in 2025 (timestamp 1750000000000,
i.e. 2025-06-15), the question "nyc high temp dec 25" does not parse to
2025-12-25: the matched text "dec 25" carries no year and Node's (V8) date
parser fills in its default year 2001, not the current year. -/
theorem extractTargetDate_dec25_cex :
    yearOfMs 1750000000000 = 2025 ∧
    extractTargetDate 1750000000000 "nyc high temp dec 25" noEndMarket ≠
      "2025-12-25" :=
  ⟨by decide, by decide⟩

/-- C7 (amended): for the (lowercased) question "nyc high temp dec 25" with
no explicit end-date field, `extractTargetDate` parses the target date via
the abbreviated-month-name pattern — the ISO, slash and full-month patterns
do not match, the abbreviated pattern matches "dec 25" — but the resulting
date is 2001-12-25: the day and month come from the question while the
missing year is the JavaScript date parser's default year 2001, not the
year of the parse context. -/
theorem extractTargetDate_dec25_default_year :
    extractTargetDate 1750000000000 "nyc high temp dec 25" noEndMarket =
      "2001-12-25" ∧
    scanMatch matchIsoAt "nyc high temp dec 25".toList = none ∧
    scanMatch matchSlashAt "nyc high temp dec 25".toList = none ∧
    scanMatch (matchMonthListAt fullMonthNames false)
      "nyc high temp dec 25".toList = none ∧
    scanMatch (matchMonthListAt abbrevMonthNames true)
      "nyc high temp dec 25".toList = some "dec 25".toList ∧
    jsParseDate (yearOfMs 1750000000000) "dec 25" = some "2001-12-25" :=
  ⟨by decide, by decide, by decide, by decide, by decide, by decide⟩

/-- C5 counterexample: in `cexScanWorld` the primary discovery fetch and all
three fallback keyword fetches throw — discovery fails after its fallback
is exhausted — yet `scan` completes successfully with zero markets instead
of reporting a hard error. -/
theorem scan_discovery_failure_no_error_cex :
    cexScanWorld.primary = none ∧
    cexScanWorld.broad "temperature" = none ∧
    cexScanWorld.broad "high" = none ∧
    cexScanWorld.broad "weather" = none ∧
    scan cexScanWorld 0 none = Except.ok (WeatherScanResult.mk [] [] [] 0) :=
  ⟨rfl, rfl, rfl, rfl, rfl⟩

/-- C5 (amended): a scan never aborts with a hard error: discovery failure
(primary and fallback both exhausted) yields an empty market list and a
successful completion, zero markets found is a successful non-error
completion, and no other condition (per-city forecast failure, per-token
price failure, unparseable markets) makes the scan fail — every scan
returns `Except.ok`. -/
theorem scan_never_hard_errors (w : ScanWorld) (nowMs : Int) (t : Option Int) :
    ∃ r, scan w nowMs t = Except.ok r := by
  by_cases h : (findTemperatureMarkets nowMs w.primary w.broad).isEmpty <;>
    simp [scan, h]
